import Mathlib

/-!
Verification of `src/pages/index/documents.tsx` (meilisearch-ui Documents page).

The page is a thin UI layer: form validation, pass-through calls to the
Meilisearch client SDK, and notification/refetch side effects.  We embed the
relevant handlers shallowly: JavaScript strings are Lean `String`s with the
JS `split`/`trim` primitives re-implemented structurally over `List Char`;
JSON values produced by `JSON.parse` are an inductive `Json`; every observable
side effect (SDK endpoint call, notification, refetch, modal/form state
change) is a constructor of `Effect`, and each handler is a function from its
inputs to the list of effects it performs (plus, where relevant, the resulting
form-field value).
-/

namespace MeiliUI

/-- Helper for `jsSplit`: splits a character list at every occurrence of `sep`,
keeping empty segments (the behaviour of JavaScript `String.prototype.split`
with a one-character separator). `acc` holds the current segment reversed. -/
def splitCharAux (sep : Char) : List Char → List Char → List (List Char)
  | [], acc => [acc.reverse]
  | c :: cs, acc =>
      if c = sep then acc.reverse :: splitCharAux sep cs []
      else splitCharAux sep cs (c :: acc)

/-- Embedding of JavaScript `s.split(sep)` for a one-character separator:
splits on every occurrence, keeps empty segments, and on the empty string
returns `[""]`. -/
def jsSplit (sep : Char) (s : String) : List String :=
  (splitCharAux sep s.data []).map String.mk

/-- Embedding of JavaScript `s.trim()`: removes leading and trailing
whitespace. -/
def jsTrim (s : String) : String :=
  String.mk (((s.data.dropWhile Char.isWhitespace).reverse.dropWhile
    Char.isWhitespace).reverse)

/-- Values produced by `JSON.parse`. -/
inductive Json where
  | null : Json
  | bool (b : Bool) : Json
  | num (n : Int) : Json
  | str (s : String) : Json
  | arr (elements : List Json) : Json
  | obj (fields : List (String × Json)) : Json

/-- Observable side effects of the handlers in `documents.tsx`: Meilisearch
SDK endpoint calls, notifications, the results-query refetch, modal and form
state changes, the confirmation modal, and console output. -/
inductive Effect where
  | callAddDocuments (docs : List Json) : Effect
  | callUpdateDocuments (docs : List Json) : Effect
  | callDeleteDocuments (ids : List Json) : Effect
  | showNotification (color message : String) : Effect
  | showTaskSubmitNotification : Effect
  | showTaskErrorNotification : Effect
  | refetchSearch : Effect
  | setIsAddDocumentsModalOpen (b : Bool) : Effect
  | setIsEditDocumentsModalOpen (b : Bool) : Effect
  | resetAddDocumentsForm : Effect
  | setDocumentsField (docs : List Json) : Effect
  | openConfirmModal : Effect
  | consoleDebug : Effect
  | consoleError : Effect

/-- Recognises the results-query refetch effect. -/
def Effect.isRefetchSearch : Effect → Bool
  | Effect.refetchSearch => true
  | _ => false

/-- Recognises the task-submit success notification effect. -/
def Effect.isTaskSubmitNotification : Effect → Bool
  | Effect.showTaskSubmitNotification => true
  | _ => false

/-- Recognises a call to the add-documents endpoint. -/
def Effect.isAddDocumentsCall : Effect → Bool
  | Effect.callAddDocuments _ => true
  | _ => false

/-- Recognises a call to the update-documents endpoint. -/
def Effect.isUpdateDocumentsCall : Effect → Bool
  | Effect.callUpdateDocuments _ => true
  | _ => false

/-- Recognises a call to the delete-documents endpoint. -/
def Effect.isDeleteDocumentsCall : Effect → Bool
  | Effect.callDeleteDocuments _ => true
  | _ => false

/-- Recognises the effect that writes the add-documents form field. -/
def Effect.isSetDocumentsField : Effect → Bool
  | Effect.setDocumentsField _ => true
  | _ => false

/-- Recognises any user-visible notification (plain, task-submit, or
task-error). -/
def Effect.isUserNotification : Effect → Bool
  | Effect.showNotification _ _ => true
  | Effect.showTaskSubmitNotification => true
  | Effect.showTaskErrorNotification => true
  | _ => false

/-- JavaScript truthiness of a `string | undefined` value: `undefined` and the
empty string are falsy. -/
def jsTruthyOptStr : Option String → Bool
  | none => false
  | some s => s != ""

/-- Source `documents.tsx:35-36`, `searchForm.validate.limit`:
`value < 500 ? null : 'limit search value allow (<500) in this ui console for
performance'`. -/
def searchFormValidateLimit (value : Int) : Option String :=
  if value < 500 then none
  else some "limit search value allow (<500) in this ui console for performance"

/-- Submitting the search form (`searchForm.onSubmit(onSearchSubmit)`,
`documents.tsx:257` and `120-122`): Mantine runs the validators and invokes
`onSearchSubmit` (which refetches `searchDocumentsQuery`) only when every
validator returns `null`. -/
def onSearchSubmitFlow (limit : Int) : List Effect :=
  match searchFormValidateLimit limit with
  | none => [Effect.refetchSearch]
  | some _ => []

/-- Literal message of the add-documents validator (`documents.tsx:51`). -/
def addDocumentsInvalidMsg : String :=
  "Added documents should be JSON Array whose length > 0"

/-- Source `documents.tsx:47-58`, `addDocumentsForm.validate.documents`:
returns `null` when `value.length > 0`; otherwise fires a yellow notification
with the literal message and returns that message.  The first component is the
validation result, the second the effects the validator itself performs. -/
def addDocumentsFormValidateDocuments (value : List Json) :
    Option String × List Effect :=
  if 0 < value.length then (none, [])
  else (some addDocumentsInvalidMsg,
        [Effect.showNotification "yellow" addDocumentsInvalidMsg])

/-- Source `documents.tsx:104-106`: the mutation function of
`addDocumentsMutation` calls `indexClient.addDocuments(variables)`. -/
def addDocumentsMutationCall (docs : List Json) : List Effect :=
  [Effect.callAddDocuments docs]

/-- Submitting the add-documents form
(`addDocumentsForm.onSubmit(onAddDocumentsSubmit)`, `documents.tsx:336` and
`138-143`): Mantine runs the validator; when it passes, `onAddDocumentsSubmit`
calls `addDocumentsMutation.mutate(val.documents)`. -/
def onAddDocumentsSubmitFlow (documents : List Json) : List Effect :=
  match addDocumentsFormValidateDocuments documents with
  | (none, effs) => effs ++ addDocumentsMutationCall documents
  | (some _, effs) => effs

/-- Source `documents.tsx:108-112`, `addDocumentsMutation.onSuccess`:
`showTaskSubmitNotification(t); setIsAddDocumentsModalOpen(false);
addDocumentsForm.reset()`. -/
def addDocumentsMutationOnSuccess : List Effect :=
  [Effect.showTaskSubmitNotification,
   Effect.setIsAddDocumentsModalOpen false,
   Effect.resetAddDocumentsForm]

/-- Source `documents.tsx:161-164`, `removeDocumentsMutation.onSuccess`:
`showTaskSubmitNotification(t); searchDocumentsQuery.refetch().then()`. -/
def removeDocumentsMutationOnSuccess : List Effect :=
  [Effect.showTaskSubmitNotification, Effect.refetchSearch]

/-- Source `documents.tsx:178-182`, `editDocumentMutation.onSuccess`:
`setIsEditDocumentsModalOpen(false); showTaskSubmitNotification(t);
searchDocumentsQuery.refetch().then()`. -/
def editDocumentMutationOnSuccess : List Effect :=
  [Effect.setIsEditDocumentsModalOpen false,
   Effect.showTaskSubmitNotification,
   Effect.refetchSearch]

/-- Source `documents.tsx:113-116`, `165-168`, `183-186`: each mutation's
`onError` handler logs to the console and shows a task-error notification. -/
def mutationOnError : List Effect :=
  [Effect.consoleError, Effect.showTaskErrorNotification]

/-- Values of `searchForm` (`documents.tsx:27-33`). -/
structure SearchFormValues where
  q : String
  offset : Int
  limit : Int
  filter : String
  sort : String

/-- Argument record of the `indexClient.search` call (`documents.tsx:79-87`). -/
structure SearchRequest where
  q : String
  limit : Int
  offset : Int
  filter : String
  sort : List String

/-- Source `documents.tsx:77-88`, query function of `searchDocumentsQuery`:
forwards `q`, `limit`, `offset`, `filter` unchanged and sends
`sort.split(',').filter((v) => v.trim().length > 0).map((v) => v.trim())`. -/
def searchDocumentsQueryFn (v : SearchFormValues) : SearchRequest :=
  { q := v.q
    limit := v.limit
    offset := v.offset
    filter := v.filter
    sort := ((jsSplit ',' v.sort).filter fun s =>
      decide (0 < (jsTrim s).length)).map jsTrim }

/-- Stated from the claim wording, for comparison with
`searchDocumentsQueryFn`: the list obtained by splitting the sort expression
on commas, dropping segments that are empty or whitespace-only (those whose
trim is empty), and trimming each remaining segment. -/
def sortExpressionSpec (sort : String) : List String :=
  ((jsSplit ',' sort).filter fun seg => decide (jsTrim seg ≠ "")).map jsTrim

/-- Source `documents.tsx:130`: `_.isArray(json) ? json : _.isObject(json) ?
[json] : []` applied to a `JSON.parse` result (for parsed JSON values, lodash
`isObject` is true exactly on objects once arrays have been handled). -/
def jsonToDefaultArr : Json → List Json
  | Json.arr elements => elements
  | Json.obj fields => [Json.obj fields]
  | _ => []

/-- Source `documents.tsx:124-136`, `onAddDocumentsClick`: opens the modal,
then, when the clipboard holds `text/plain`, parses it (`parsed = none` models
a `JSON.parse` throw, which aborts the handler), coerces the result with
`jsonToDefaultArr`, and sets the `documents` field only when the coerced array
is non-empty.  Returns the resulting `documents` field value together with the
effects performed. -/
def onAddDocumentsClick (hasTextPlain : Bool) (parsed : Option Json)
    (documentsField : List Json) : List Json × List Effect :=
  if hasTextPlain then
    match parsed with
    | none => (documentsField, [Effect.setIsAddDocumentsModalOpen true])
    | some json =>
        let arr := jsonToDefaultArr json
        if 0 < arr.length then
          (arr, [Effect.setIsAddDocumentsModalOpen true, Effect.consoleDebug,
                 Effect.setDocumentsField arr])
        else
          (documentsField,
           [Effect.setIsAddDocumentsModalOpen true, Effect.consoleDebug])
  else (documentsField, [Effect.setIsAddDocumentsModalOpen true])

/-- Source `documents.tsx:157-159`: the mutation function of
`removeDocumentsMutation` calls `indexClient.deleteDocuments(docId)`. -/
def removeDocumentsMutationCall (docId : List Json) : List Effect :=
  [Effect.callDeleteDocuments docId]

/-- Source `documents.tsx:190-220`, `onClickDocumentDel`: logs to the console;
when `indexPrimaryKeyQuery.data` (`pk : string | undefined`) is truthy, opens
the confirmation modal and, on confirm, mutates with the one-element list
`[doc[pk]]`; otherwise shows a danger notification naming the index and makes
no endpoint call.  `doc` maps field names to the clicked document's values;
`confirmed` tells whether the user confirmed the modal. -/
def onClickDocumentDel (pk : Option String) (doc : String → Json)
    (uid : String) (confirmed : Bool) : List Effect :=
  Effect.consoleDebug ::
    (if jsTruthyOptStr pk then
      match pk with
      | some k =>
          Effect.openConfirmModal ::
            (if confirmed then removeDocumentsMutationCall [doc k] else [])
      | none => []
    else
      [Effect.showNotification "danger"
        ("Document deletion require the valid primaryKey in index " ++ uid)])

/-- Source `documents.tsx:174-176`: the mutation function of
`editDocumentMutation` calls `indexClient.updateDocuments(docs)`. -/
def editDocumentMutationCall (docs : List Json) : List Effect :=
  [Effect.callUpdateDocuments docs]

/-- Source `documents.tsx:227-229`, `onSubmitDocumentUpdate`:
`editingDocument && editDocumentMutation.mutate([editingDocument])` — a
defined object is truthy, so the mutation runs with the one-element list
exactly when a document is under edit. -/
def onSubmitDocumentUpdate (editingDocument : Option Json) : List Effect :=
  match editingDocument with
  | some d => editDocumentMutationCall [d]
  | none => []

/-- Options passed to `useQuery` that matter for polling
(`documents.tsx:67-72` and `89-96`). -/
structure UseQueryOptions where
  enabled : Bool
  refetchInterval : Nat

/-- Source `documents.tsx:21`: `currentIndex = searchParams.get('index')?.trim()`
(`none` models an absent `index` search parameter). -/
def currentIndex (indexSearchParam : Option String) : Option String :=
  indexSearchParam.map jsTrim

/-- Source `documents.tsx:62-73`: `indexPrimaryKeyQuery` is declared with
`enabled: !!currentIndex` and `refetchInterval: 30000`. -/
def indexPrimaryKeyQueryOptions (indexSearchParam : Option String) :
    UseQueryOptions :=
  { enabled := jsTruthyOptStr (currentIndex indexSearchParam)
    refetchInterval := 30000 }

/-- Source `documents.tsx:75-97`: `searchDocumentsQuery` is declared with
`enabled: !!currentIndex` and `refetchInterval: 5000`. -/
def searchDocumentsQueryOptions (indexSearchParam : Option String) :
    UseQueryOptions :=
  { enabled := jsTruthyOptStr (currentIndex indexSearchParam)
    refetchInterval := 5000 }

/-- Modelled from the spec: the client-side cache/refetch layer is an external
library of which this repository only supplies the option values, and per the
spec it re-issues an enabled query once every `refetchInterval` milliseconds
and issues no request for a disabled query.  `requestsIssued opts t` counts
the interval-driven re-issues during the first `t` milliseconds. -/
def requestsIssued (opts : UseQueryOptions) (t : Nat) : Nat :=
  if opts.enabled then t / opts.refetchInterval else 0

/-- Helper: a string has positive length exactly when it is not the empty
string. -/
theorem string_length_pos_iff (s : String) : 0 < s.length ↔ s ≠ "" := by
  cases s with
  | mk data =>
      simp only [String.length]
      rw [List.length_pos_iff_ne_nil]
      constructor
      · intro h heq
        exact h (congrArg String.data heq)
      · intro h heq
        exact h (congrArg String.mk heq)

/-- C2: the search-form limit validator rejects a submission exactly when the
limit is at least 500, produces the literal performance message on rejection,
and a rejected submission triggers no search refetch. -/
theorem searchFormValidateLimit_spec (value : Int) :
    (searchFormValidateLimit value = none ↔ value < 500) ∧
    (500 ≤ value → searchFormValidateLimit value =
      some "limit search value allow (<500) in this ui console for performance") ∧
    (onSearchSubmitFlow value = [] ↔ 500 ≤ value) := by
  unfold onSearchSubmitFlow searchFormValidateLimit
  by_cases h : value < 500
  · simp [h]
  · simp [h]
    omega

/-- C2 witness: at limit 500 the validator returns the literal message. -/
theorem searchFormValidateLimit_spec_witness :
    searchFormValidateLimit 500 =
      some "limit search value allow (<500) in this ui console for performance" :=
  (searchFormValidateLimit_spec 500).2.1 (by decide)

/-- C8: the limit validator has no lower bound: every limit strictly below
500 is accepted. -/
theorem searchFormValidateLimit_no_lower_bound (value : Int)
    (h : value < 500) : searchFormValidateLimit value = none := by
  unfold searchFormValidateLimit
  simp [h]

/-- C8 witness: limit 0 and limit -100 are both accepted. -/
theorem searchFormValidateLimit_no_lower_bound_witness :
    searchFormValidateLimit 0 = none ∧ searchFormValidateLimit (-100) = none :=
  ⟨searchFormValidateLimit_no_lower_bound 0 (by decide),
   searchFormValidateLimit_no_lower_bound (-100) (by decide)⟩

/-- C5: the add-documents validator accepts exactly the non-empty arrays; on
an empty array it returns the literal message, shows it as a yellow (warning)
notification, and the submit flow never reaches the add-documents endpoint;
on a non-empty array the flow calls the endpoint with that array. -/
theorem addDocumentsValidate_spec (documents : List Json) :
    ((addDocumentsFormValidateDocuments documents).1 = none ↔
      0 < documents.length) ∧
    (documents.length = 0 →
      (addDocumentsFormValidateDocuments documents).1 =
        some addDocumentsInvalidMsg ∧
      (addDocumentsFormValidateDocuments documents).2 =
        [Effect.showNotification "yellow" addDocumentsInvalidMsg] ∧
      (onAddDocumentsSubmitFlow documents).filter Effect.isAddDocumentsCall =
        []) ∧
    (0 < documents.length →
      (onAddDocumentsSubmitFlow documents).filter Effect.isAddDocumentsCall =
        [Effect.callAddDocuments documents]) := by
  unfold onAddDocumentsSubmitFlow addDocumentsFormValidateDocuments
    addDocumentsMutationCall
  by_cases h : 0 < documents.length
  · refine ⟨by simp [h], fun h0 => absurd h (by omega), fun _ => ?_⟩
    simp [h, Effect.isAddDocumentsCall]
  · refine ⟨by simp [h], fun _ => ?_, fun h0 => absurd h0 h⟩
    simp [h, Effect.isAddDocumentsCall]

/-- C5 witness: the empty batch is rejected with the literal message, a yellow
notification, and no endpoint call. -/
theorem addDocumentsValidate_spec_witness :
    (addDocumentsFormValidateDocuments ([] : List Json)).1 =
      some addDocumentsInvalidMsg ∧
    (addDocumentsFormValidateDocuments ([] : List Json)).2 =
      [Effect.showNotification "yellow" addDocumentsInvalidMsg] ∧
    (onAddDocumentsSubmitFlow ([] : List Json)).filter
      Effect.isAddDocumentsCall = [] :=
  (addDocumentsValidate_spec []).2.1 rfl

/-- C1 counterexample: the add-documents mutation's success handler performs
no refetch of the search-results query, so its refetch count is not one. -/
theorem mutation_refetch_counterexample :
    ¬ ((addDocumentsMutationOnSuccess.filter Effect.isRefetchSearch).length
      = 1) := by
  decide

/-- C1 (amended): successful delete and update each trigger exactly one
results refetch and exactly one task-submit notification; a successful add
triggers exactly one task-submit notification but no refetch. -/
theorem mutation_refetch_notification_counts :
    (removeDocumentsMutationOnSuccess.filter Effect.isRefetchSearch).length
      = 1 ∧
    (removeDocumentsMutationOnSuccess.filter
      Effect.isTaskSubmitNotification).length = 1 ∧
    (editDocumentMutationOnSuccess.filter Effect.isRefetchSearch).length
      = 1 ∧
    (editDocumentMutationOnSuccess.filter
      Effect.isTaskSubmitNotification).length = 1 ∧
    (addDocumentsMutationOnSuccess.filter Effect.isRefetchSearch).length
      = 0 ∧
    (addDocumentsMutationOnSuccess.filter
      Effect.isTaskSubmitNotification).length = 1 := by
  decide

/-- C3: when the primary-key query holds no key, clicking delete shows
exactly one notification — the danger notification naming the index — and
performs no delete-documents call; when a non-empty key is present and the
user confirms, the delete-documents call is performed. -/
theorem onClickDocumentDel_requires_pk (pk : Option String)
    (doc : String → Json) (uid : String) (confirmed : Bool) :
    (pk = none →
      (onClickDocumentDel pk doc uid confirmed).filter
        Effect.isUserNotification =
        [Effect.showNotification "danger"
          ("Document deletion require the valid primaryKey in index " ++ uid)] ∧
      (onClickDocumentDel pk doc uid confirmed).filter
        Effect.isDeleteDocumentsCall = []) ∧
    (∀ k, pk = some k → k ≠ "" → confirmed = true →
      (onClickDocumentDel pk doc uid confirmed).filter
        Effect.isDeleteDocumentsCall = [Effect.callDeleteDocuments [doc k]]) := by
  constructor
  · rintro rfl
    simp [onClickDocumentDel, jsTruthyOptStr, Effect.isUserNotification,
      Effect.isDeleteDocumentsCall]
  · rintro k rfl hk rfl
    simp [onClickDocumentDel, jsTruthyOptStr, removeDocumentsMutationCall,
      Effect.isDeleteDocumentsCall, hk]

/-- C3 witness: with no primary key, the handler emits the danger notification
and no delete call. -/
theorem onClickDocumentDel_requires_pk_witness :
    (onClickDocumentDel none (fun _ => Json.null) "movies" false).filter
      Effect.isUserNotification =
      [Effect.showNotification "danger"
        ("Document deletion require the valid primaryKey in index " ++ "movies")] ∧
    (onClickDocumentDel none (fun _ => Json.null) "movies" false).filter
      Effect.isDeleteDocumentsCall = [] :=
  (onClickDocumentDel_requires_pk none (fun _ => Json.null) "movies" false).1 rfl

/-- C9: with a non-empty primary key, the delete handler sends a
delete-documents call exactly when the confirmation modal is confirmed, and
that call carries exactly the one-element list holding the clicked document's
primary-key field value. -/
theorem removeDocuments_sends_single_id (k : String) (doc : String → Json)
    (uid : String) (h : k ≠ "") (confirmed : Bool) :
    (onClickDocumentDel (some k) doc uid confirmed).filter
      Effect.isDeleteDocumentsCall =
      if confirmed then [Effect.callDeleteDocuments [doc k]] else [] := by
  cases confirmed <;>
    simp [onClickDocumentDel, jsTruthyOptStr, removeDocumentsMutationCall,
      Effect.isDeleteDocumentsCall, h]

/-- C9 witness: a confirmed deletion of a document whose `id` field is the
string "1" sends exactly `deleteDocuments(["1"])`. -/
theorem removeDocuments_sends_single_id_witness :
    (onClickDocumentDel (some "id") (fun _ => Json.str "1") "movies" true).filter
      Effect.isDeleteDocumentsCall =
      if true then [Effect.callDeleteDocuments [Json.str "1"]] else [] :=
  removeDocuments_sends_single_id "id" (fun _ => Json.str "1") "movies"
    (by decide) true

/-- C10: submitting the edit-document form with no document under edit
performs no effect at all (in particular no update-documents call); with a
document under edit it performs exactly the update-documents call carrying
that document as a one-element array. -/
theorem onSubmitDocumentUpdate_spec :
    onSubmitDocumentUpdate none = [] ∧
    ∀ d, onSubmitDocumentUpdate (some d) = [Effect.callUpdateDocuments [d]] := by
  exact ⟨rfl, fun d => rfl⟩

/-- C4: the search call forwards the query text, limit, offset and filter
unchanged, and forwards the sort expression split on commas with empty and
whitespace-only segments dropped and the remaining segments trimmed; in
particular "a:asc, b:desc" is forwarded as ["a:asc", "b:desc"]. -/
theorem searchDocumentsQueryFn_spec (v : SearchFormValues) :
    (searchDocumentsQueryFn v).q = v.q ∧
    (searchDocumentsQueryFn v).limit = v.limit ∧
    (searchDocumentsQueryFn v).offset = v.offset ∧
    (searchDocumentsQueryFn v).filter = v.filter ∧
    (searchDocumentsQueryFn v).sort = sortExpressionSpec v.sort ∧
    sortExpressionSpec "a:asc, b:desc" = ["a:asc", "b:desc"] := by
  refine ⟨rfl, rfl, rfl, rfl, ?_, by decide⟩
  show ((jsSplit ',' v.sort).filter fun s =>
      decide (0 < (jsTrim s).length)).map jsTrim = _
  unfold sortExpressionSpec
  congr 1
  exact List.filter_congr fun x _ =>
    decide_eq_decide.mpr (string_length_pos_iff (jsTrim x))

/-- C6: the clipboard handler uses a parsed JSON array as the default batch,
coerces a parsed JSON object to a one-element batch, and in every other case
(a parse failure, a scalar, or an empty coerced array) leaves the documents
field unchanged while emitting no notification and no field write. -/
theorem onAddDocumentsClick_spec (parsed : Option Json) (field : List Json) :
    (∀ xs, parsed = some (Json.arr xs) → 0 < xs.length →
      (onAddDocumentsClick true parsed field).1 = xs) ∧
    (∀ fs, parsed = some (Json.obj fs) →
      (onAddDocumentsClick true parsed field).1 = [Json.obj fs]) ∧
    ((parsed = none ∨ ∃ j, parsed = some j ∧ jsonToDefaultArr j = []) →
      (onAddDocumentsClick true parsed field).1 = field ∧
      (onAddDocumentsClick true parsed field).2.filter
        Effect.isUserNotification = [] ∧
      (onAddDocumentsClick true parsed field).2.filter
        Effect.isSetDocumentsField = []) := by
  refine ⟨?_, ?_, ?_⟩
  · rintro xs rfl hxs
    simp [onAddDocumentsClick, jsonToDefaultArr, hxs]
  · rintro fs rfl
    simp [onAddDocumentsClick, jsonToDefaultArr]
  · rintro (rfl | ⟨j, rfl, hj⟩)
    · simp [onAddDocumentsClick, Effect.isUserNotification,
        Effect.isSetDocumentsField]
    · simp [onAddDocumentsClick, hj, Effect.isUserNotification,
        Effect.isSetDocumentsField]

/-- C6 witness: clipboard text parsing to the scalar string "x" leaves an
empty documents field unchanged with no notification and no field write. -/
theorem onAddDocumentsClick_spec_witness :
    (onAddDocumentsClick true (some (Json.str "x")) []).1 = ([] : List Json) ∧
    (onAddDocumentsClick true (some (Json.str "x")) []).2.filter
      Effect.isUserNotification = [] ∧
    (onAddDocumentsClick true (some (Json.str "x")) []).2.filter
      Effect.isSetDocumentsField = [] :=
  (onAddDocumentsClick_spec (some (Json.str "x")) []).2.2
    (Or.inr ⟨Json.str "x", rfl, rfl⟩)

/-- C7: while an index is selected both queries are enabled, the primary-key
query polls every 30000 ms and the search query every 5000 ms (in the
discrete-time model of the cache layer, `t / interval` re-issues in `t`
milliseconds); with no index selected both queries are disabled and issue no
requests at any time. -/
theorem pollingQueries_spec (p : Option String) :
    (jsTruthyOptStr (currentIndex p) = true →
      (indexPrimaryKeyQueryOptions p).enabled = true ∧
      (indexPrimaryKeyQueryOptions p).refetchInterval = 30000 ∧
      (searchDocumentsQueryOptions p).enabled = true ∧
      (searchDocumentsQueryOptions p).refetchInterval = 5000 ∧
      (∀ t, requestsIssued (indexPrimaryKeyQueryOptions p) t = t / 30000 ∧
            requestsIssued (searchDocumentsQueryOptions p) t = t / 5000)) ∧
    (jsTruthyOptStr (currentIndex p) = false →
      (indexPrimaryKeyQueryOptions p).enabled = false ∧
      (searchDocumentsQueryOptions p).enabled = false ∧
      (∀ t, requestsIssued (indexPrimaryKeyQueryOptions p) t = 0 ∧
            requestsIssued (searchDocumentsQueryOptions p) t = 0)) := by
  constructor
  · intro h
    simp [indexPrimaryKeyQueryOptions, searchDocumentsQueryOptions,
      requestsIssued, h]
  · intro h
    simp [indexPrimaryKeyQueryOptions, searchDocumentsQueryOptions,
      requestsIssued, h]

/-- C7 witness: with index "movies" selected the primary-key query is enabled,
and with no index selected the search query is disabled and issues no
requests in the first minute. -/
theorem pollingQueries_spec_witness :
    (indexPrimaryKeyQueryOptions (some "movies")).enabled = true ∧
    (searchDocumentsQueryOptions none).enabled = false ∧
    requestsIssued (searchDocumentsQueryOptions none) 60000 = 0 :=
  ⟨((pollingQueries_spec (some "movies")).1 (by decide)).1,
   ((pollingQueries_spec none).2 rfl).2.1,
   (((pollingQueries_spec none).2 rfl).2.2 60000).2⟩

end MeiliUI
